import Mathlib

/-!
Shallow embedding of the StackVista Integrations-Finder resolution pipeline
(`integrations_finder.py`).  Network interaction is modelled by an explicit
environment of HTTP oracles; every Python method of `IntegrationsFinder`
that the claims mention is translated into an executable Lean function over
that environment.
-/

namespace IntegrationsFinder

/-- ASCII hexadecimal digit, the character class `[a-fA-F0-9]` of the
Python regular expressions. -/
def hexChar (c : Char) : Bool :=
  c.isDigit || ('a' ≤ c && c ≤ 'f') || ('A' ≤ c && c ≤ 'F')

/-- Final step shared by the capturing regex tiers: take the next eight
characters and accept when they are exactly eight hex digits
(`([a-fA-F0-9]{8})` anchored at the current position). -/
def grabHex8 (l : List Char) : Option (List Char) :=
  let h := l.take 8
  if h.length == 8 && h.all hexChar then some h else none

/-- Consume a non-empty maximal digit run (`[0-9]+`; greedy, and since
every delimiter that follows it in the patterns is not a digit, the
Python regex backtracking is deterministic and maximal-run parsing is
faithful). -/
def expectDigits (l : List Char) : Option (List Char) :=
  match l.span Char.isDigit with
  | ([], _) => none
  | (_ :: _, r) => some r

/-- Consume one literal character. -/
def expectChar (c : Char) : List Char → Option (List Char)
  | [] => none
  | x :: xs => if x = c then some xs else none

/-- Match the pattern `[0-9]+\.[0-9]+\.[0-9]+-([a-fA-F0-9]{8})` anchored at
the head of `l`, returning the captured group. -/
def matchContainerAt (l : List Char) : Option (List Char) :=
  (expectDigits l).bind fun r1 =>
  (expectChar '.' r1).bind fun r2 =>
  (expectDigits r2).bind fun r3 =>
  (expectChar '.' r3).bind fun r4 =>
  (expectDigits r4).bind fun r5 =>
  (expectChar '-' r5).bind fun r6 =>
  grabHex8 r6

/-- Consume the literal characters `lit` from the head of `l`. -/
def dropLit : List Char → List Char → Option (List Char)
  | [], l => some l
  | _ :: _, [] => none
  | p :: ps, c :: cs => if p = c then dropLit ps cs else none

/-- The literal registry path of the quay.io tier. -/
def quayLit : List Char := "quay.io/stackstate/stackstate-k8s-agent:".data

/-- Match `quay\.io/stackstate/stackstate-k8s-agent:([a-fA-F0-9]{8})`
anchored at the head of `l`, returning the captured group. -/
def matchQuayAt (l : List Char) : Option (List Char) :=
  (dropLit quayLit l).bind grabHex8

/-- Match `[a-fA-F0-9]{8}` anchored at the head of `l` (the generic
fallback tier). -/
def matchHex8At (l : List Char) : Option (List Char) :=
  grabHex8 l

/-- Leftmost search, `re.search` semantics: try the anchored matcher at
every start position from left to right, first success wins. -/
def searchWith (m : List Char → Option (List Char)) : List Char → Option (List Char)
  | [] => m []
  | c :: rest =>
    match m (c :: rest) with
    | some h => some h
    | none => searchWith m rest

/-- `IntegrationsFinder.extract_sha`: tiered extraction of an 8-character
hex revision id from free-form input.  Tier 1 is the exact-length match
(`len(input) == 8 and re.match(...)`), tiers 2-4 are leftmost regex
searches. -/
def extract_sha (s : String) : Option String :=
  if s.data.length == 8 && s.data.all hexChar then some s
  else
    match searchWith matchContainerAt s.data with
    | some h => some (String.mk h)
    | none =>
      match searchWith matchQuayAt s.data with
      | some h => some (String.mk h)
      | none =>
        match searchWith matchHex8At s.data with
        | some h => some (String.mk h)
        | none => none

/-- Result of one HTTP GET: a response with a status code and an
already-parsed body, or a raised exception (network error, or a JSON/body
parse error — in the Python both end in the enclosing `except` block). -/
inductive HttpResult (α : Type) where
  | ok (status : Nat) (body : α)
  | exn
  deriving DecidableEq

/-- Author object of a GitHub commit JSON body (`commit.author`). -/
structure Author where
  date : String
  name : String
  deriving DecidableEq

/-- The `commit` sub-object of a GitHub commit JSON body; its `author`
field may be absent. -/
structure AuthorBlock where
  author : Option Author
  deriving DecidableEq

/-- A GitHub commit JSON body as the code reads it: the fields `sha`,
`html_url` and `commit`, each possibly absent. -/
structure CommitJson where
  sha : Option String
  html_url : Option String
  commit : Option AuthorBlock
  deriving DecidableEq

/-- Parsed body of the file-contents endpoint: the `type` field, and the
outcome of base64-decoding and JSON-parsing the `content` field —
`none` when decoding/parsing raises, otherwise the (possibly absent)
value of the `STACKSTATE_INTEGRATIONS_VERSION` key. -/
structure ContentsResp where
  typ : Option String
  fileParse : Option (Option String)
  deriving DecidableEq

/-- One entry of the tags-list endpoint: its `name` field, possibly
absent (`tag.get("name")`). -/
structure Tag where
  name : Option String
  deriving DecidableEq

/-- The network environment: one oracle per HTTP endpoint the pipeline
queries, keyed by the request parameter the code sends. -/
structure Env where
  /-- `api.github.com/.../stackstate-agent/commits/{sha}` -/
  agentApi : String → HttpResult CommitJson
  /-- `github.com/.../stackstate-agent/commit/{sha}` (human-facing page) -/
  agentPage : String → HttpResult Unit
  /-- `api.github.com/.../contents/stackstate-deps.json?ref={sha}` -/
  depsApi : String → HttpResult ContentsResp
  /-- `raw.githubusercontent.com/.../{sha}/stackstate-deps.json`, body
  parsed to the value of the version key -/
  depsRaw : String → HttpResult (Option String)
  /-- `api.github.com/.../stackstate-agent-integrations/commits?sha={v}&per_page=1` -/
  intgList : String → HttpResult (List CommitJson)
  /-- `api.github.com/.../stackstate-agent-integrations/commits/{v}` -/
  intgSingle : String → HttpResult CommitJson
  /-- `api.github.com/.../stackstate-agent-integrations/tags` -/
  tagsResp : HttpResult (List Tag)

def AGENT_REPO : String := "https://github.com/StackVista/stackstate-agent"

def INTEGRATIONS_REPO : String := "https://github.com/StackVista/stackstate-agent-integrations"

/-- `IntegrationsFinder.get_agent_commit`: primary API lookup, falling
back to the human-facing commit page on a non-200 primary response; an
exception anywhere yields `none`. -/
def get_agent_commit (env : Env) (sha : String) : Option CommitJson :=
  match env.agentApi sha with
  | .exn => none
  | .ok status j =>
    if status = 200 then some j
    else
      match env.agentPage sha with
      | .exn => none
      | .ok status2 _ =>
        if status2 = 200 then
          some { sha := some sha
                 html_url := some (AGENT_REPO ++ "/commit/" ++ sha)
                 commit := none }
        else none

/-- Raw-URL fallback tier of `get_stackstate_deps`. -/
def deps_raw_fallback (env : Env) (sha : String) : Option String :=
  match env.depsRaw sha with
  | .exn => none
  | .ok status deps => if status = 200 then deps else none

/-- `IntegrationsFinder.get_stackstate_deps`: read the
`STACKSTATE_INTEGRATIONS_VERSION` key of `stackstate-deps.json` at the
given revision, via the contents API with a raw-URL fallback.  When the
contents API answers 200 with `type == "file"`, its parse result is
returned directly (even when the key is absent); the fallback runs only
on a non-200 status or a non-file `type`. -/
def get_stackstate_deps (env : Env) (sha : String) : Option String :=
  match env.depsApi sha with
  | .exn => none
  | .ok status content =>
    if status = 200 then
      if content.typ = some "file" then
        match content.fileParse with
        | none => none
        | some deps => deps
      else deps_raw_fallback env sha
    else deps_raw_fallback env sha

/-- Direct-commit fallback tier of `get_integrations_commit`. -/
def intg_single_fallback (env : Env) (version : String) : Option CommitJson :=
  match env.intgSingle version with
  | .exn => none
  | .ok status j => if status = 200 then some j else none

/-- `IntegrationsFinder.get_integrations_commit`: latest commit for a
version via the commits-list endpoint (first element when the list is
non-empty), falling back to the direct commit endpoint. -/
def get_integrations_commit (env : Env) (version : String) : Option CommitJson :=
  match env.intgList version with
  | .exn => none
  | .ok status commits =>
    if status = 200 then
      match commits with
      | [] => intg_single_fallback env version
      | c :: _ => some c
    else intg_single_fallback env version

/-- `IntegrationsFinder.is_branch_version`: fetch the tag list; `false`
(a tag) exactly when some returned tag's name equals the version, `true`
(a branch) otherwise, including on a non-200 response or an exception. -/
def is_branch_version (env : Env) (version : String) : Bool :=
  match env.tagsResp with
  | .exn => true
  | .ok status tags =>
    if status = 200 then
      if tags.any (fun t => t.name == some version) then false else true
    else true

/-- `IntegrationsFinder.build_integrations_url`. -/
def build_integrations_url (integrations_version : String) : String :=
  INTEGRATIONS_REPO ++ "/tree/" ++ integrations_version

/-- The agent-commit formatting block of `find_integrations`: author date
and name when `commit.author` is present, `"N/A"` otherwise. -/
def fmt_agent (ci : CommitJson) : String × String :=
  match ci.commit with
  | some cd =>
    match cd.author with
    | some a => (a.date, a.name)
    | none => ("N/A", "N/A")
  | none => ("N/A", "N/A")

/-- The integrations-commit formatting block of `find_integrations`:
`(date, committer, short sha)`, each `"N/A"` when the underlying data is
absent; the sha is truncated to 8 characters (`[:8]`). -/
def fmt_intg : Option CommitJson → String × String × String
  | none => ("N/A", "N/A", "N/A")
  | some ci =>
    let dn := fmt_agent ci
    (dn.1, dn.2, (ci.sha.getD "N/A").take 8)

/-- The development-branch warning block interpolated into the report
when the version is classified as a branch. -/
def warning_block (v : String) : String :=
  "\n⚠️  WARNING: This integrations version (" ++ v ++
  ") appears to be a development branch, not a released tag.\n   This means you\x27re working with an unofficial/unreleased development version of the integrations."

/-- Everything of the success report after the (possibly empty) warning
block, with the interpolated values as arguments, in the order they
appear in the f-string. -/
def report_tail (sha hurl adate acommitter v vlabel isha url idate icommitter : String) : String :=
  "\n\nSUSE Observability Agent Commit:\n  SHA: " ++ sha ++
  "\n  URL: " ++ hurl ++
  "\n  Date: " ++ adate ++
  "\n  Committer: " ++ acommitter ++
  "\n\nIntegrations Commit:\n  Version: " ++ v ++ " " ++ vlabel ++
  "\n  SHA: " ++ isha ++
  "\n  URL: " ++ url ++
  "\n  Date: " ++ idate ++
  "\n  Committer: " ++ icommitter ++
  "\n\nClick the integrations URL above to view the source code."

/-- The success message f-string: fixed prefix, warning block, rest. -/
def render_report (branch_warning rest : String) : String :=
  "Success! Found integrations source code:" ++ branch_warning ++ rest

def extract_fail_msg (input_string : String) : String :=
  "Could not extract 8-character SHA from: " ++ input_string

def agent_fail_msg (sha : String) : String :=
  "Could not find agent commit with SHA: " ++ sha

def manifest_fail_msg (sha : String) : String :=
  "Could not find integrations version in stackstate-deps.json for SHA: " ++ sha

/-- `IntegrationsFinder.find_integrations`.  The Python returns a 2-tuple
`(False, message)` on the failure paths and a 3-tuple
`(True, message, is_branch)` on the success path; the dynamic third slot
is modelled as `Option Bool` (`none` = absent).  The manifest step guard
is Python falsiness: `None` and the empty string both fail. -/
def find_integrations (env : Env) (input_string : String) : Bool × String × Option Bool :=
  match extract_sha input_string with
  | none => (false, extract_fail_msg input_string, none)
  | some sha =>
    match get_agent_commit env sha with
    | none => (false, agent_fail_msg sha, none)
    | some commit_info =>
      match get_stackstate_deps env sha with
      | none => (false, manifest_fail_msg sha, none)
      | some iv =>
        if iv = "" then (false, manifest_fail_msg sha, none)
        else
          let intg := get_integrations_commit env iv
          let isb := is_branch_version env iv
          let url := build_integrations_url iv
          let ad := fmt_agent commit_info
          let idn := fmt_intg intg
          let bw := if isb then warning_block iv else ""
          let vlabel := if isb then "(DEVELOPMENT BRANCH)" else "(RELEASED TAG)"
          (true,
           render_report bw
             (report_tail sha (commit_info.html_url.getD "N/A") ad.1 ad.2 iv vlabel
               idn.2.2 url idn.1 idn.2.1),
           some isb)

/-- Marker predicate for the warning block: the report text contains the
warning sign character U+26A0, which occurs in the fixed text of the
warning block and nowhere else in the fixed text of the report. -/
def hasWarnChar (s : String) : Bool :=
  s.data.any (fun c => c = '⚠')

/-- An environment in which every HTTP request raises. -/
def envExn : Env :=
  { agentApi := fun _ => .exn
    agentPage := fun _ => .exn
    depsApi := fun _ => .exn
    depsRaw := fun _ => .exn
    intgList := fun _ => .exn
    intgSingle := fun _ => .exn
    tagsResp := .exn }

/-- A sample agent commit body, for concrete runs. -/
def ciSample : CommitJson :=
  { sha := some "0123456789abcdef"
    html_url := some "https://github.com/StackVista/stackstate-agent/commit/a1b2c3d4"
    commit := some { author := some { date := "2024-05-01T12:00:00Z", name := "Jane Doe" } } }

/-- A sample manifest body whose version key holds `"1.2.3"`. -/
def contentsSample : ContentsResp := { typ := some "file", fileParse := some (some "1.2.3") }

/-- Environment for concrete runs: agent lookup and manifest succeed,
the dependency-commit endpoints raise, the tag list contains the
version. -/
def envOk : Env :=
  { agentApi := fun _ => .ok 200 ciSample
    agentPage := fun _ => .exn
    depsApi := fun _ => .ok 200 contentsSample
    depsRaw := fun _ => .exn
    intgList := fun _ => .exn
    intgSingle := fun _ => .exn
    tagsResp := .ok 200 [{ name := some "1.2.3" }] }

/-- Like `envOk` but with an empty tag list, so the version classifies
as a branch. -/
def envBranch : Env := { envOk with tagsResp := .ok 200 [] }

/-- Like `envOk` but the manifest's version key holds the empty
string. -/
def envEmptyVersion : Env :=
  { envOk with depsApi := fun _ => .ok 200 { typ := some "file", fileParse := some (some "") } }

/- ------------------------------------------------------------------ -/
/- Helper lemmas                                                      -/
/- ------------------------------------------------------------------ -/

theorem str_eq_of_data (s t : String) (h : s.data = t.data) : s = t := by
  cases s
  cases t
  cases h
  rfl

theorem data_append (s t : String) : (s ++ t).data = s.data ++ t.data := by
  cases s
  cases t
  rfl

theorem strAppend_assoc (a b c : String) : (a ++ b) ++ c = a ++ (b ++ c) := by
  apply str_eq_of_data
  rw [data_append, data_append, data_append, data_append, List.append_assoc]

theorem hasWarnChar_append (s t : String) :
    hasWarnChar (s ++ t) = (hasWarnChar s || hasWarnChar t) := by
  unfold hasWarnChar
  rw [data_append, List.any_append]

theorem hasWarnChar_warning_block (v : String) :
    hasWarnChar (warning_block v) = true := by
  unfold warning_block
  rw [hasWarnChar_append, hasWarnChar_append]
  have h1 : hasWarnChar "\n⚠️  WARNING: This integrations version (" = true := by decide
  rw [h1]
  rfl

theorem hasWarnChar_build_url (v : String) (h : hasWarnChar v = false) :
    hasWarnChar (build_integrations_url v) = false := by
  unfold build_integrations_url INTEGRATIONS_REPO
  rw [hasWarnChar_append, hasWarnChar_append, h]
  decide

theorem grabHex8_some {l h : List Char} (hg : grabHex8 l = some h) :
    h.length = 8 ∧ h.all hexChar = true := by
  simp only [grabHex8] at hg
  split at hg
  · cases hg
    rename_i hc
    rw [Bool.and_eq_true] at hc
    exact ⟨by simpa using hc.1, hc.2⟩
  · cases hg

theorem matchContainerAt_some {l h : List Char} (hm : matchContainerAt l = some h) :
    h.length = 8 ∧ h.all hexChar = true := by
  unfold matchContainerAt at hm
  simp only [Option.bind_eq_some] at hm
  obtain ⟨r1, -, r2, -, r3, -, r4, -, r5, -, r6, -, hg⟩ := hm
  exact grabHex8_some hg

theorem matchQuayAt_some {l h : List Char} (hm : matchQuayAt l = some h) :
    h.length = 8 ∧ h.all hexChar = true := by
  unfold matchQuayAt at hm
  simp only [Option.bind_eq_some] at hm
  obtain ⟨rest, -, hg⟩ := hm
  exact grabHex8_some hg

theorem matchHex8At_some {l h : List Char} (hm : matchHex8At l = some h) :
    h.length = 8 ∧ h.all hexChar = true :=
  grabHex8_some hm

theorem searchWith_some {m : List Char → Option (List Char)} {l h : List Char}
    (hs : searchWith m l = some h) : ∃ l', m l' = some h := by
  induction l with
  | nil => exact ⟨[], hs⟩
  | cons c rest ih =>
    unfold searchWith at hs
    cases hm : m (c :: rest) with
    | some h2 =>
      simp only [hm] at hs
      cases hs
      exact ⟨c :: rest, hm⟩
    | none =>
      simp only [hm] at hs
      exact ih hs

theorem searchWith_hexOutput {m : List Char → Option (List Char)} {l h : List Char}
    (hm : ∀ l' h', m l' = some h' → h'.length = 8 ∧ h'.all hexChar = true)
    (hs : searchWith m l = some h) : h.length = 8 ∧ h.all hexChar = true := by
  obtain ⟨l', hl'⟩ := searchWith_some hs
  exact hm l' h hl'

theorem searchWith_least {m : List Char → Option (List Char)} {h : List Char} :
    ∀ (l : List Char) (i : Nat),
      (∀ j, j < i → m (l.drop j) = none) → m (l.drop i) = some h →
      searchWith m l = some h := by
  intro l
  induction l with
  | nil =>
    intro i _ hi
    rw [List.drop_nil] at hi
    unfold searchWith
    exact hi
  | cons c rest ih =>
    intro i hlt hi
    cases i with
    | zero =>
      rw [List.drop_zero] at hi
      unfold searchWith
      simp only [hi]
    | succ i' =>
      have h0 : m (c :: rest) = none := by
        have := hlt 0 (Nat.succ_pos i')
        simpa using this
      unfold searchWith
      simp only [h0]
      refine ih i' (fun j hj => ?_) (by simpa using hi)
      have := hlt (j + 1) (Nat.succ_lt_succ hj)
      simpa using this

theorem get_agent_commit_congr {env₂ env : Env} (sha : String)
    (h1 : env₂.agentApi = env.agentApi) (h2 : env₂.agentPage = env.agentPage) :
    get_agent_commit env₂ sha = get_agent_commit env sha := by
  unfold get_agent_commit
  rw [h1, h2]

theorem hasWarnChar_report_tail
    (sha hurl adate acommitter v vlabel isha url idate icommitter : String)
    (h1 : hasWarnChar sha = false) (h2 : hasWarnChar hurl = false)
    (h3 : hasWarnChar adate = false) (h4 : hasWarnChar acommitter = false)
    (h5 : hasWarnChar v = false) (h6 : hasWarnChar vlabel = false)
    (h7 : hasWarnChar isha = false) (h8 : hasWarnChar url = false)
    (h9 : hasWarnChar idate = false) (h10 : hasWarnChar icommitter = false) :
    hasWarnChar (report_tail sha hurl adate acommitter v vlabel isha url idate icommitter) = false := by
  unfold report_tail
  simp only [hasWarnChar_append, h1, h2, h3, h4, h5, h6, h7, h8, h9, h10,
    Bool.or_false, Bool.false_or]
  decide

/- ------------------------------------------------------------------ -/
/- Claims                                                             -/
/- ------------------------------------------------------------------ -/

/-- C5: for every 8-character string whose characters are all hex digits,
`extract_sha` applied to exactly that string returns the string itself,
unchanged (the tier-1 exact match). -/
theorem c5_extract_exact_hex8_identity (s : String)
    (h8 : s.data.length = 8) (hhex : s.data.all hexChar = true) :
    extract_sha s = some s := by
  unfold extract_sha
  rw [h8, hhex]
  rfl

theorem c5_extract_exact_hex8_identity_witness :
    ("a1b2c3d4" : String).data.length = 8 ∧ extract_sha "a1b2c3d4" = some "a1b2c3d4" :=
  ⟨by decide, c5_extract_exact_hex8_identity "a1b2c3d4" (by decide) (by decide)⟩

/-- C7: every value returned by `extract_sha`, through any of its four
tiers, is exactly 8 characters long and entirely hexadecimal (the
RevisionId invariant). -/
theorem c7_extract_result_is_hex8 (s r : String) (h : extract_sha s = some r) :
    r.data.length = 8 ∧ r.data.all hexChar = true := by
  unfold extract_sha at h
  split at h
  · rename_i hc
    cases h
    rw [Bool.and_eq_true] at hc
    exact ⟨by simpa using hc.1, hc.2⟩
  · cases h1 : searchWith matchContainerAt s.data with
    | some l =>
      simp only [h1] at h
      cases h
      exact searchWith_hexOutput (fun _ _ hq => matchContainerAt_some hq) h1
    | none =>
      simp only [h1] at h
      cases h2 : searchWith matchQuayAt s.data with
      | some l =>
        simp only [h2] at h
        cases h
        exact searchWith_hexOutput (fun _ _ hq => matchQuayAt_some hq) h2
      | none =>
        simp only [h2] at h
        cases h3 : searchWith matchHex8At s.data with
        | some l =>
          simp only [h3] at h
          cases h
          exact searchWith_hexOutput (fun _ _ hq => matchHex8At_some hq) h3
        | none =>
          simp only [h3] at h
          exact Option.noConfusion h

theorem c7_extract_result_is_hex8_witness :
    extract_sha "tag 7.51.1-deadbeef" = some "deadbeef" ∧
    ("deadbeef" : String).data.length = 8 ∧ ("deadbeef" : String).data.all hexChar = true :=
  ⟨by decide, c7_extract_result_is_hex8 "tag 7.51.1-deadbeef" "deadbeef" (by decide)⟩

/-- C6 counterexample: the input `"aaaaaaaaa"` is a single maximal run of
nine hex characters, so under the claim the generic fallback should find
no standalone run of exactly eight and `extract_sha` should return
not-found; the code instead returns the first eight characters of the
run. -/
theorem c6_counterexample_longer_hex_run :
    extract_sha "aaaaaaaaa" = some "aaaaaaaa" := by decide

/-- C6 (amended): when tiers 1-3 do not match, the generic fallback
returns the 8-character window starting at the leftmost position where 8
consecutive hex characters begin — also when that window lies inside a
longer run of hex characters. -/
theorem c6_fallback_leftmost_window (s : String) (i : Nat) (h : List Char)
    (h1 : (s.data.length == 8 && s.data.all hexChar) = false)
    (h2 : searchWith matchContainerAt s.data = none)
    (h3 : searchWith matchQuayAt s.data = none)
    (h4 : matchHex8At (s.data.drop i) = some h)
    (h5 : ∀ j, j < i → matchHex8At (s.data.drop j) = none) :
    extract_sha s = some (String.mk h) := by
  have hs : searchWith matchHex8At s.data = some h := searchWith_least s.data i h5 h4
  unfold extract_sha
  rw [h1]
  simp only [h2, h3, hs]
  rfl

theorem c6_fallback_leftmost_window_witness :
    extract_sha "zzaaaaaaaaa" = some (String.mk ['a', 'a', 'a', 'a', 'a', 'a', 'a', 'a']) :=
  c6_fallback_leftmost_window "zzaaaaaaaaa" 2 ['a', 'a', 'a', 'a', 'a', 'a', 'a', 'a']
    (by decide) (by decide) (by decide) (by decide)
    (by
      intro j hj
      interval_cases j <;> decide)

/-- C3: whenever the tag-list query succeeds (HTTP 200 with a parsable
tag list), `is_branch_version` returns `false` iff the version string
exactly equals the name of some returned tag, and returns `true` when it
equals no returned tag name. -/
theorem c3_isBranch_false_iff_tag_member (env : Env) (version : String) (tags : List Tag)
    (h : env.tagsResp = HttpResult.ok 200 tags) :
    (is_branch_version env version = false ↔ ∃ t ∈ tags, t.name = some version) ∧
    ((∀ t ∈ tags, t.name ≠ some version) → is_branch_version env version = true) := by
  have hb : is_branch_version env version =
      (if tags.any (fun t => t.name == some version) then false else true) := by
    unfold is_branch_version
    rw [h]
    rfl
  constructor
  · rw [hb]
    cases hc : tags.any (fun t => t.name == some version) with
    | true =>
      rw [if_pos rfl]
      simp only [List.any_eq_true, beq_iff_eq] at hc
      simpa using hc
    | false =>
      rw [if_neg Bool.false_ne_true]
      simp only [List.any_eq_false, beq_iff_eq] at hc
      constructor
      · intro hcontra
        exact Bool.noConfusion hcontra
      · intro ⟨t, ht, hname⟩
        exact absurd hname (hc t ht)
  · intro hnone
    rw [hb]
    have hc : tags.any (fun t => t.name == some version) = false := by
      simp only [List.any_eq_false, beq_iff_eq]
      exact hnone
    rw [hc]
    rfl

theorem c3_isBranch_false_iff_tag_member_witness :
    is_branch_version envOk "1.2.3" = false := by
  have h := (c3_isBranch_false_iff_tag_member envOk "1.2.3" [{ name := some "1.2.3" }] rfl).1
  exact h.mpr ⟨{ name := some "1.2.3" }, List.mem_cons_self _ _, rfl⟩

/-- C4: if the tag-list query fails entirely (raised exception or a
non-200 response), `is_branch_version` returns `true` regardless of the
version string. -/
theorem c4_isBranch_true_on_query_failure (env : Env) (version : String)
    (h : env.tagsResp = HttpResult.exn ∨
      ∃ st tags, env.tagsResp = HttpResult.ok st tags ∧ st ≠ 200) :
    is_branch_version env version = true := by
  unfold is_branch_version
  rcases h with h | ⟨st, tags, h, hst⟩
  · rw [h]
  · rw [h]
    simp only [if_neg hst]

theorem c4_isBranch_true_on_query_failure_witness :
    is_branch_version envExn "main" = true :=
  c4_isBranch_true_on_query_failure envExn "main" (Or.inl rfl)

/-- C1: when a revision id is extracted but the upstream commit lookup
returns not-found, `find_integrations` fails with the message naming the
missing revision id, and the result is the same in every environment
that agrees on the two agent-lookup endpoints — the manifest read, the
dependency-commit lookup and the branch classification are never
consulted (the pipeline short-circuits at step 2). -/
theorem c1_agent_lookup_failure_short_circuits (env : Env) (input_string sha : String)
    (hex : extract_sha input_string = some sha)
    (hag : get_agent_commit env sha = none) :
    find_integrations env input_string = (false, agent_fail_msg sha, none) ∧
    ∀ env₂ : Env, env₂.agentApi = env.agentApi → env₂.agentPage = env.agentPage →
      find_integrations env₂ input_string = (false, agent_fail_msg sha, none) := by
  have main : ∀ env₂ : Env, env₂.agentApi = env.agentApi → env₂.agentPage = env.agentPage →
      find_integrations env₂ input_string = (false, agent_fail_msg sha, none) := by
    intro env₂ h1 h2
    have hag₂ : get_agent_commit env₂ sha = none := by
      rw [get_agent_commit_congr sha h1 h2, hag]
    unfold find_integrations
    simp only [hex, hag₂]
  exact ⟨main env rfl rfl, main⟩

theorem c1_agent_lookup_failure_short_circuits_witness :
    find_integrations envExn "a1b2c3d4" = (false, agent_fail_msg "a1b2c3d4", none) :=
  (c1_agent_lookup_failure_short_circuits envExn "a1b2c3d4" "a1b2c3d4" (by decide) rfl).1

/-- C10: when the manifest is retrieved and parsed but its
dependency-version key holds the empty string, `find_integrations`
fails with the manifest-unavailable message, the same outcome as when
the key is absent (the guard tests falsiness, not key presence). -/
theorem c10_empty_version_manifest_failure (env : Env) (input_string sha : String)
    (ci : CommitJson)
    (hex : extract_sha input_string = some sha)
    (hag : get_agent_commit env sha = some ci)
    (hdep : get_stackstate_deps env sha = some "") :
    find_integrations env input_string = (false, manifest_fail_msg sha, none) ∧
    ∀ (env₂ : Env) (ci₂ : CommitJson), get_agent_commit env₂ sha = some ci₂ →
      get_stackstate_deps env₂ sha = none →
      find_integrations env₂ input_string = find_integrations env input_string := by
  have hthis : find_integrations env input_string = (false, manifest_fail_msg sha, none) := by
    unfold find_integrations
    simp only [hex, hag, hdep]
    rw [if_pos trivial]
  refine ⟨hthis, fun env₂ ci₂ hag₂ hdep₂ => ?_⟩
  rw [hthis]
  unfold find_integrations
  simp only [hex, hag₂, hdep₂]

theorem c10_empty_version_manifest_failure_witness :
    find_integrations envEmptyVersion "a1b2c3d4" =
      (false, manifest_fail_msg "a1b2c3d4", none) :=
  (c10_empty_version_manifest_failure envEmptyVersion "a1b2c3d4" "a1b2c3d4" ciSample
    (by decide) (by decide) (by decide)).1

/-- C9 counterexample: on a failure path (extraction fails here) the
code returns a 2-tuple `(False, message)`, so the outcome carries no
`isBranch` field — the claim that every invocation returns all of
success, report and isBranch is false. -/
theorem c9_counterexample_missing_isBranch :
    (find_integrations envExn "not-a-sha").1 = false ∧
    (find_integrations envExn "not-a-sha").2.2 = none := by decide

/-- C9 (amended): the outcome carries the isBranch field exactly when
the resolution succeeds — the failure paths of steps 1-3 return a
2-tuple without it, the success path a 3-tuple with it. -/
theorem c9_isBranch_present_iff_success (env : Env) (input_string : String) :
    ((find_integrations env input_string).2.2).isSome = (find_integrations env input_string).1 := by
  unfold find_integrations
  cases hx : extract_sha input_string <;> simp only [hx]
  case none => rfl
  case some sha =>
    cases ha : get_agent_commit env sha <;> simp only [ha]
    case none => rfl
    case some ci =>
      cases hd : get_stackstate_deps env sha <;> simp only [hd]
      case none => rfl
      case some iv =>
        by_cases hiv : iv = ""
        · rw [if_pos hiv]
          rfl
        · rw [if_neg hiv]
          rfl

/-- C2: when extraction, the agent-commit lookup and the manifest read
all succeed but the best-effort dependency-commit lookup returns
not-found, `find_integrations` still succeeds and the dependency
commit's date, committer and short SHA fields in the report are the
degraded value "N/A". -/
theorem c2_dependency_metadata_degrades_to_na (env : Env) (input_string sha iv : String)
    (ci : CommitJson)
    (hex : extract_sha input_string = some sha)
    (hag : get_agent_commit env sha = some ci)
    (hdep : get_stackstate_deps env sha = some iv)
    (hiv : ¬ iv = "")
    (hintg : get_integrations_commit env iv = none) :
    find_integrations env input_string =
      (true,
       render_report (if is_branch_version env iv then warning_block iv else "")
         (report_tail sha (ci.html_url.getD "N/A") (fmt_agent ci).1 (fmt_agent ci).2 iv
           (if is_branch_version env iv then "(DEVELOPMENT BRANCH)" else "(RELEASED TAG)")
           "N/A" (build_integrations_url iv) "N/A" "N/A"),
       some (is_branch_version env iv)) := by
  unfold find_integrations
  simp only [hex, hag, hdep]
  rw [if_neg hiv]
  simp only [hintg]
  rfl

theorem c2_dependency_metadata_degrades_to_na_witness :
    (find_integrations envOk "a1b2c3d4").1 = true ∧
    (find_integrations envOk "a1b2c3d4").2.2 = some false := by
  rw [c2_dependency_metadata_degrades_to_na envOk "a1b2c3d4" "a1b2c3d4" "1.2.3" ciSample
    (by decide) (by decide) (by decide) (by decide) (by decide)]
  refine ⟨rfl, ?_⟩
  rfl

/-- C8: on every successful resolution whose interpolated values do not
themselves contain the warning marker character, the report contains the
development-branch warning block iff the outcome's isBranch flag is
true; when the flag is true the report literally decomposes around
`warning_block`. -/
theorem c8_warning_iff_branch (env : Env) (input_string sha iv : String) (ci : CommitJson)
    (hex : extract_sha input_string = some sha)
    (hag : get_agent_commit env sha = some ci)
    (hdep : get_stackstate_deps env sha = some iv)
    (hiv : ¬ iv = "")
    (w1 : hasWarnChar sha = false)
    (w2 : hasWarnChar iv = false)
    (w3 : hasWarnChar (ci.html_url.getD "N/A") = false)
    (w4 : hasWarnChar (fmt_agent ci).1 = false)
    (w5 : hasWarnChar (fmt_agent ci).2 = false)
    (w6 : hasWarnChar (fmt_intg (get_integrations_commit env iv)).1 = false)
    (w7 : hasWarnChar (fmt_intg (get_integrations_commit env iv)).2.1 = false)
    (w8 : hasWarnChar (fmt_intg (get_integrations_commit env iv)).2.2 = false) :
    hasWarnChar (find_integrations env input_string).2.1 = is_branch_version env iv ∧
    (is_branch_version env iv = true →
      ∃ a b : String, (find_integrations env input_string).2.1 = a ++ (warning_block iv ++ b)) := by
  have hfind : (find_integrations env input_string).2.1 =
      render_report (if is_branch_version env iv then warning_block iv else "")
        (report_tail sha (ci.html_url.getD "N/A") (fmt_agent ci).1 (fmt_agent ci).2 iv
          (if is_branch_version env iv then "(DEVELOPMENT BRANCH)" else "(RELEASED TAG)")
          (fmt_intg (get_integrations_commit env iv)).2.2 (build_integrations_url iv)
          (fmt_intg (get_integrations_commit env iv)).1
          (fmt_intg (get_integrations_commit env iv)).2.1) := by
    unfold find_integrations
    simp only [hex, hag, hdep]
    rw [if_neg hiv]
  have hvlabel : hasWarnChar
      (if is_branch_version env iv then "(DEVELOPMENT BRANCH)" else "(RELEASED TAG)") = false := by
    cases is_branch_version env iv <;> decide
  have htail : hasWarnChar
      (report_tail sha (ci.html_url.getD "N/A") (fmt_agent ci).1 (fmt_agent ci).2 iv
        (if is_branch_version env iv then "(DEVELOPMENT BRANCH)" else "(RELEASED TAG)")
        (fmt_intg (get_integrations_commit env iv)).2.2 (build_integrations_url iv)
        (fmt_intg (get_integrations_commit env iv)).1
        (fmt_intg (get_integrations_commit env iv)).2.1) = false :=
    hasWarnChar_report_tail _ _ _ _ _ _ _ _ _ _
      w1 w3 w4 w5 w2 hvlabel w8 (hasWarnChar_build_url iv w2) w6 w7
  constructor
  · rw [hfind]
    unfold render_report
    rw [hasWarnChar_append, hasWarnChar_append, htail]
    cases hb : is_branch_version env iv with
    | true =>
      rw [if_pos rfl, hasWarnChar_warning_block]
      decide
    | false =>
      rw [if_neg Bool.false_ne_true]
      decide
  · intro hb
    rw [hfind]
    unfold render_report
    rw [if_pos hb]
    exact ⟨_, _, strAppend_assoc _ _ _⟩

theorem c8_warning_iff_branch_witness :
    hasWarnChar (find_integrations envBranch "a1b2c3d4").2.1 = true := by
  have h := (c8_warning_iff_branch envBranch "a1b2c3d4" "a1b2c3d4" "1.2.3" ciSample
    (by decide) (by decide) (by decide) (by decide) (by decide) (by decide) (by decide)
    (by decide) (by decide) (by decide) (by decide) (by decide)).1
  rw [h]
  rfl

end IntegrationsFinder
